import Mathlib

/-
Verification development for the Skern tag generation / verification system
(src/app.py).  The Python source is shallowly embedded: pure helpers become
Lean functions over `List Char` (Python `str`), `ℕ` (byte values), `ℚ`
(Python floats are modelled by the rationals they denote in the source
text), and `Option`/`Except` for fallible library calls.  The image-library
pipeline (numpy, cv2, pyzbar, PIL) is external: each detector takes the
library-call result as an `Except PyErr _` input, the `.error` case standing
for a raised exception inside the detector's `try` block.
-/

namespace Skern

/-- Stand-in for a Python exception raised by a library call inside a
detector's `try` block. -/
structure PyErr where
  msg : List Char

/- ──────────────────────────────────────────────────────────────────────
   QR payload handling (src/app.py lines 42-60 and 185-199)
   ────────────────────────────────────────────────────────────────────── -/

/-- Embeds the check `'id=' in qr_data` from `detect_qr_code`:
does the string contain the three-character marker `id=`? -/
def startsWithMarker : List Char → Bool
  | c1 :: c2 :: c3 :: _ => c1 == 'i' && c2 == 'd' && c3 == '='
  | _ => false

/-- Embeds Python `'id=' in qr_data`. -/
def containsMarker : List Char → Bool
  | [] => false
  | c :: rest => startsWithMarker (c :: rest) || containsMarker rest

/-- Worker for `splitMarker`: Python `str.split('id=')`, scanning left to
right, cutting at each non-overlapping occurrence of `id=`. -/
def splitMarkerAux : List Char → List Char → List (List Char)
  | [], acc => [acc.reverse]
  | c1 :: c2 :: c3 :: rest, acc =>
    if c1 == 'i' && c2 == 'd' && c3 == '=' then
      acc.reverse :: splitMarkerAux rest []
    else
      splitMarkerAux (c2 :: c3 :: rest) (c1 :: acc)
  | c :: rest, acc => splitMarkerAux rest (c :: acc)

/-- Embeds `qr_data.split('id=')` from `detect_qr_code`. -/
def splitMarker (s : List Char) : List (List Char) :=
  splitMarkerAux s []

/-- Embeds the loop body of `detect_qr_code` over the decoded payloads:
the first payload containing `id=` is split and the chunk after the first
occurrence is returned (`qr_data.split('id=')[1]`). -/
def detectQrLoop : List (List Char) → Option (List Char)
  | [] => none
  | qr_data :: rest =>
    if containsMarker qr_data then some ((splitMarker qr_data).getD 1 [])
    else detectQrLoop rest

/-- Embeds `detect_qr_code` (src/app.py lines 42-60).  The input is the
result of the `np.array` / `pyzbar.decode` / `.decode('utf-8')` pipeline:
either a raised library exception or the list of decoded payload strings.
The `except` clause maps any exception to `None`. -/
def detect_qr_code : Except PyErr (List (List Char)) → Option (List Char)
  | Except.error _ => none
  | Except.ok objs => detectQrLoop objs

/-- Embeds the f-string `f"https://skern.com/verify?id={cert_id}"` from
`generate_qr_layer` (src/app.py line 186). -/
def qr_url (cert_id : List Char) : List Char :=
  "https://skern.com/verify?id=".toList ++ cert_id

/- ──────────────────────────────────────────────────────────────────────
   Guilloche / grid / corner detectors (src/app.py lines 62-124)
   ────────────────────────────────────────────────────────────────────── -/

/-- One pixel of the HSV image produced by `cv2.cvtColor(..., COLOR_RGB2HSV)`
(each channel a byte, hue in 0..179). -/
structure HSV where
  hue : ℕ
  sat : ℕ
  val : ℕ
deriving DecidableEq

/-- Pixel membership in the cyan mask
`cv2.inRange(hsv, [80,50,50], [100,255,255])` (bounds inclusive). -/
def inCyanBand (p : HSV) : Bool :=
  80 ≤ p.hue && p.hue ≤ 100 && 50 ≤ p.sat && p.sat ≤ 255 && 50 ≤ p.val && p.val ≤ 255

/-- Pixel membership in the magenta mask
`cv2.inRange(hsv, [140,50,50], [170,255,255])` (bounds inclusive). -/
def inMagentaBand (p : HSV) : Bool :=
  140 ≤ p.hue && p.hue ≤ 170 && 50 ≤ p.sat && p.sat ≤ 255 && 50 ≤ p.val && p.val ≤ 255

/-- Embeds `np.sum(cyan_mask > 0)`: number of pixels in the cyan band. -/
def cyan_count (img : List HSV) : ℕ :=
  (img.filter inCyanBand).length

/-- Embeds `np.sum(magenta_mask > 0)`: number of pixels in the magenta band. -/
def magenta_count (img : List HSV) : ℕ :=
  (img.filter inMagentaBand).length

/-- Embeds `detect_guilloche_pattern` (src/app.py lines 62-92).  The input
is the HSV pixel array after `cv2.cvtColor`, flattened to a list (so
`total_pixels = image.size[0] * image.size[1]` is the list length); the
`.error` case is a raised library exception, mapped to `False` by the
`except` clause.  The float literal `0.02` is modelled as the rational
`2/100` it denotes. -/
def detect_guilloche_pattern : Except PyErr (List HSV) → Bool
  | Except.error _ => false
  | Except.ok hsv =>
    let cyan_pixels := cyan_count hsv
    let magenta_pixels := magenta_count hsv
    let total_pixels := hsv.length
    let threshold : ℚ := (total_pixels : ℚ) * (2 / 100)
    decide ((cyan_pixels : ℚ) > threshold) || decide ((magenta_pixels : ℚ) > threshold)

/-- One line segment returned by `cv2.HoughLinesP`; the coordinates are
never inspected by `detect_grid_pattern`. -/
structure Segment where
  x1 : ℤ
  y1 : ℤ
  x2 : ℤ
  y2 : ℤ
deriving DecidableEq

/-- Embeds `detect_grid_pattern` (src/app.py lines 94-107).  The input is
the `cv2.HoughLinesP` result (`None` or an array of segments), or a raised
library exception; the code returns `lines is not None and len(lines) > 10`. -/
def detect_grid_pattern : Except PyErr (Option (List Segment)) → Bool
  | Except.error _ => false
  | Except.ok none => false
  | Except.ok (some lines) => decide (lines.length > 10)

/-- Embeds `corners.max()` over a nonempty response list (the empty case is handled
separately in `detect_corner_markers`, where numpy raises and the `except`
clause returns `False`). -/
def maxResponse : List ℚ → ℚ
  | [] => 0
  | r :: rest => rest.foldl max r

/-- Embeds `detect_corner_markers` (src/app.py lines 109-124).  The input is
the Harris corner-response map flattened to a list of values, or a raised
library exception.  `np.sum(corners > 0.01 * corners.max())` counts strictly
greater responses; on an empty response map `corners.max()` raises and the
`except` clause returns `False`. -/
def detect_corner_markers : Except PyErr (List ℚ) → Bool
  | Except.error _ => false
  | Except.ok [] => false
  | Except.ok (r :: rest) =>
    let corner_count :=
      ((r :: rest).filter (fun x => decide (x > (1 / 100) * maxResponse (r :: rest)))).length
    decide (corner_count ≥ 4)

/- ──────────────────────────────────────────────────────────────────────
   Verification analyzer (src/app.py lines 126-160)
   ────────────────────────────────────────────────────────────────────── -/

/-- The `results` dict assembled by `analyze_tag_image`. -/
structure AnalysisResult where
  qr_detected : Bool
  qr_cert_id : Option (List Char)
  guilloche_detected : Bool
  grid_detected : Bool
  corners_detected : Bool
  overall_valid : Bool
deriving DecidableEq

/-- Python truthiness of the optional cert-id string (`if cert_id:` /
`if analysis['qr_cert_id']:`): `None` and the empty string are falsy. -/
def truthyId : Option (List Char) → Bool
  | none => false
  | some s => !s.isEmpty

/-- Embeds `analyze_tag_image` (src/app.py lines 126-160), as a function of
the four library-pipeline inputs fed to the component detectors.  The
`if cert_id:` guard means `qr_detected` / `qr_cert_id` are set only when the
extracted string is truthy. -/
def analyze_tag_image (eqr : Except PyErr (List (List Char)))
    (ehsv : Except PyErr (List HSV))
    (elines : Except PyErr (Option (List Segment)))
    (ecorners : Except PyErr (List ℚ)) : AnalysisResult :=
  let cert_id := detect_qr_code eqr
  { qr_detected := truthyId cert_id
    qr_cert_id := if truthyId cert_id then cert_id else none
    guilloche_detected := detect_guilloche_pattern ehsv
    grid_detected := detect_grid_pattern elines
    corners_detected := detect_corner_markers ecorners
    overall_valid := truthyId cert_id && detect_guilloche_pattern ehsv
      && detect_grid_pattern elines && detect_corner_markers ecorners }

/- ──────────────────────────────────────────────────────────────────────
   Simulated database / registry (src/app.py lines 14-36)
   ────────────────────────────────────────────────────────────────────── -/

/-- The `bundle` dict returned by `generate_secret_bundle` (the random
draws themselves happen outside the embedded logic). -/
structure SecretBundle where
  cert_id : List Char
  guilloche_id : List ℕ
  border_id : List ℕ
  serial_number : List Char
deriving DecidableEq

/-- The record dict stored by `store_tag_in_db`. -/
structure RegistryRecord where
  batch_code : List Char
  cert_id : List Char
  guilloche_id : List Char
  border_id : List Char
  serial_number : List Char
  created_at : List Char
  authentic : Bool
deriving DecidableEq

/-- Embeds `st.session_state.tag_database`: a Python dict keyed by cert-id. -/
abbrev DB := List Char → Option RegistryRecord

/-- One hex digit of Python `bytes.hex()` (lowercase). -/
def hexDigitChar (n : ℕ) : Char :=
  "0123456789abcdef".toList.getD n '0'

/-- Python `bytes.hex()`: two lowercase hex digits per byte. -/
def bytesHex (bs : List ℕ) : List Char :=
  bs.foldr (fun b acc => hexDigitChar (b / 16) :: hexDigitChar (b % 16) :: acc) []

/-- The record literal built inside `store_tag_in_db`; `created_at` stands
for `datetime.now().isoformat()`, passed in as a parameter. -/
def mkRegistryRecord (bundle : SecretBundle) (batch_code created_at : List Char) :
    RegistryRecord :=
  { batch_code := batch_code
    cert_id := bundle.cert_id
    guilloche_id := bytesHex bundle.guilloche_id
    border_id := bytesHex bundle.border_id
    serial_number := bundle.serial_number
    created_at := created_at
    authentic := true }

/-- Embeds `store_tag_in_db` (src/app.py lines 20-30): a plain dict
assignment `tag_database[bundle['cert_id']] = {...}`, with no existence
check before the write. -/
def store_tag_in_db (db : DB) (bundle : SecretBundle) (batch_code created_at : List Char) :
    DB :=
  fun k =>
    if k = bundle.cert_id then some (mkRegistryRecord bundle batch_code created_at)
    else db k

/-- Embeds `verify_tag_in_db` (src/app.py lines 32-36): dict lookup,
`None` when absent. -/
def verify_tag_in_db (db : DB) (cert_id : List Char) : Option RegistryRecord :=
  db cert_id

/- ──────────────────────────────────────────────────────────────────────
   Decision engine (src/app.py tab 2, lines 491-556)
   ────────────────────────────────────────────────────────────────────── -/

/-- The four verdicts surfaced by the verification tab. -/
inductive Verdict
  | AUTHENTIC
  | SUSPICIOUS
  | COUNTERFEIT
  | SCAN_FAILED
deriving DecidableEq

/-- Embeds lines 491-493: `tag_data = None; if analysis['qr_cert_id']:
tag_data = verify_tag_in_db(analysis['qr_cert_id'])`.  The guard is Python
truthiness of the extracted string. -/
def lookupTag (db : DB) (a : AnalysisResult) : Option RegistryRecord :=
  if truthyId a.qr_cert_id then verify_tag_in_db db (a.qr_cert_id.getD [])
  else none

/-- Embeds the `if/elif/elif/else` verdict chain of tab 2 (lines 495-544):
a stored record dict is always non-empty, so its Python truthiness is
`Option.isSome` here. -/
def classify (a : AnalysisResult) (tag_data : Option RegistryRecord) : Verdict :=
  if tag_data.isSome && a.overall_valid then Verdict.AUTHENTIC
  else if tag_data.isSome && !a.overall_valid then Verdict.SUSPICIOUS
  else if truthyId a.qr_cert_id && !tag_data.isSome then Verdict.COUNTERFEIT
  else Verdict.SCAN_FAILED

/-- Embeds the report block (lines 546-568): a report is produced only
under `if analysis['qr_cert_id']:`, and its `verification_result` field is
computed by the same condition chain as the displayed verdict. -/
def report_verification_result (a : AnalysisResult) (tag_data : Option RegistryRecord) :
    Option Verdict :=
  if truthyId a.qr_cert_id then
    some (if tag_data.isSome && a.overall_valid then Verdict.AUTHENTIC
      else if tag_data.isSome && !a.overall_valid then Verdict.SUSPICIOUS
      else if truthyId a.qr_cert_id && !tag_data.isSome then Verdict.COUNTERFEIT
      else Verdict.SCAN_FAILED)
  else none

/- ──────────────────────────────────────────────────────────────────────
   Guilloche parameter derivation (src/app.py lines 217-251)
   ────────────────────────────────────────────────────────────────────── -/

/-- Embeds `max_radius = canvas_size * 0.475` (line 235). -/
def max_radius (canvas_size : ℚ) : ℚ :=
  canvas_size * (475 / 1000)

/-- Byte selection `params[(base + j) % 16]` with `base = i * 4`
(lines 233-239); out-of-range indices default to 0, unreachable for a
16-byte key. -/
def curveByte (key : List ℕ) (i j : ℕ) : ℕ :=
  key.getD ((4 * i + j) % 16) 0

/-- Embeds `amp = max_radius * (0.7 + (byte / 255) * 0.3)` (line 236). -/
def amp (canvas_size : ℚ) (b : ℕ) : ℚ :=
  max_radius canvas_size * (7 / 10 + ((b : ℚ) / 255) * (3 / 10))

/-- Embeds `freq = 8 + byte // 32` (line 237). -/
def freq (b : ℕ) : ℕ :=
  8 + b / 32

/-- Embeds `petals = 5 + byte // 32` (line 238). -/
def petals (b : ℕ) : ℕ :=
  5 + b / 32

/-- The factor `byte / 255` of `phase = (byte / 255) * 2 * math.pi`
(line 239); the phase itself is this rational times `2 * π`. -/
def phaseTurns (b : ℕ) : ℚ :=
  (b : ℚ) / 255

/- ──────────────────────────────────────────────────────────────────────
   Border dash walk (src/app.py lines 253-293)
   ────────────────────────────────────────────────────────────────────── -/

/-- Embeds `idx = segment % 16` (line 278): byte offset used for the dash length
(and, in the source, also for the thickness). -/
def dashByteIdx (segment : ℕ) : ℕ :=
  segment % 16

/-- Embeds `(idx + 5) % 16` (line 281): byte offset used for the gap length. -/
def gapByteIdx (segment : ℕ) : ℕ :=
  (segment % 16 + 5) % 16

/-- Embeds `mod = (params[idx] / 255) * 2 + 1` (line 279). -/
def dash_mod (params : List ℕ) (segment : ℕ) : ℚ :=
  ((params.getD (dashByteIdx segment) 0 : ℚ) / 255) * 2 + 1

/-- Embeds `dash_len = 20 * mod * (1 + 0.3 * math.sin(dist * 0.1))` (line 280);
`math.sin` is an external transcendental call, abstracted as the parameter
`sinq`. -/
def dash_len_at (params : List ℕ) (sinq : ℚ → ℚ) (segment : ℕ) (dist : ℚ) : ℚ :=
  20 * dash_mod params segment * (1 + (3 / 10) * sinq (dist * (1 / 10)))

/-- Embeds `gap_len = 12 + (params[(idx + 5) % 16] / 255) * 10` (line 281). -/
def gap_len_at (params : List ℕ) (segment : ℕ) : ℚ :=
  12 + ((params.getD (gapByteIdx segment) 0 : ℚ) / 255) * 10

/-- Embeds `thickness = int(THICKNESS * (0.8 + 0.4 * (params[idx] / 255)))` with
`THICKNESS = 8` (line 282); the argument is nonnegative so Python `int()`
truncation is the floor. -/
def thickness_at (params : List ℕ) (segment : ℕ) : ℤ :=
  Int.floor ((8 : ℚ) * (8 / 10 + (4 / 10) * ((params.getD (dashByteIdx segment) 0 : ℚ) / 255)))

/-- One iteration of the `while dist < length` dash loop: the segment
counter at entry, the byte offsets read, and the derived values. -/
structure DashStep where
  segment : ℕ
  dashIdx : ℕ
  gapIdx : ℕ
  dash_len : ℚ
  gap_len : ℚ
  thickness : ℤ
deriving DecidableEq

/-- The `while dist < length` loop walking one side (lines 277-292),
fuelled to make the recursion structural; each iteration emits one
`DashStep` and advances `dist += dash_len + gap_len; segment += 1`. -/
def walkSide (params : List ℕ) (sinq : ℚ → ℚ) (len : ℚ) :
    ℕ → ℚ → ℕ → List DashStep × ℕ
  | 0, _, segment => ([], segment)
  | fuel + 1, dist, segment =>
    if dist < len then
      let d := dash_len_at params sinq segment dist
      let g := gap_len_at params segment
      let step : DashStep :=
        { segment := segment
          dashIdx := dashByteIdx segment
          gapIdx := gapByteIdx segment
          dash_len := d
          gap_len := g
          thickness := thickness_at params segment }
      let rest := walkSide params sinq len fuel (dist + d + g) (segment + 1)
      (step :: rest.1, rest.2)
    else ([], segment)

/-- The `for (x1, y1), (x2, y2) in sides:` loop (lines 273-292): `segment`
is initialised once before the loop and threaded through all four sides,
`dist` restarts at 0 on each side. -/
def walkBorder (params : List ℕ) (sinq : ℚ → ℚ) (fuel : ℕ) :
    List ℚ → ℕ → List DashStep × ℕ
  | [], segment => ([], segment)
  | len :: sides, segment =>
    let r := walkSide params sinq len fuel 0 segment
    let rest := walkBorder params sinq fuel sides r.2
    (r.1 ++ rest.1, rest.2)

/- ──────────────────────────────────────────────────────────────────────
   Supporting lemmas
   ────────────────────────────────────────────────────────────────────── -/

/-- Splitting a string that does not contain the `id=` marker yields a
single chunk: the accumulator followed by the whole remaining input. -/
theorem splitMarkerAux_of_not_contains :
    ∀ (s acc : List Char), containsMarker s = false →
      splitMarkerAux s acc = [acc.reverse ++ s] := by
  intro s acc h
  induction s, acc using splitMarkerAux.induct with
  | case1 acc => simp [splitMarkerAux]
  | case2 c1 c2 c3 rest acc hm ih =>
    rw [containsMarker, startsWithMarker] at h
    simp [hm] at h
  | case3 c1 c2 c3 rest acc hm ih =>
    rw [containsMarker, startsWithMarker] at h
    simp [hm] at h
    rw [splitMarkerAux, if_neg]
    · rw [ih h]
      simp
    · simp [hm]
  | case4 c t acc hshape ih =>
    rw [containsMarker] at h
    simp at h
    rcases t with _ | ⟨c2, _ | ⟨c3, t3⟩⟩
    · simp [splitMarkerAux]
    · simp [splitMarkerAux]
    · exact absurd rfl (hshape c2 c3 t3)

/- ──────────────────────────────────────────────────────────────────────
   Claim theorems
   ────────────────────────────────────────────────────────────────────── -/

/-- Claim C4: for every cert-id string not containing the substring `id=`,
splitting the QR payload `https://skern.com/verify?id=<cert_id>` built by
`generate_qr_layer` at the first `id=` (as `detect_qr_code` does) returns
exactly the original cert-id: URL embedding and QR extraction round-trip. -/
theorem qr_url_roundtrip (cert_id : List Char) (h : containsMarker cert_id = false) :
    detect_qr_code (Except.ok [qr_url cert_id]) = some cert_id := by
  have h1 : containsMarker (qr_url cert_id) = true := rfl
  have h2 : splitMarker (qr_url cert_id) =
      "https://skern.com/verify?".toList :: splitMarkerAux cert_id [] := rfl
  have h3 : splitMarkerAux cert_id [] = [cert_id] := by
    simpa using splitMarkerAux_of_not_contains cert_id [] h
  simp [detect_qr_code, detectQrLoop, h1, h2, h3]

/-- Witness for C4 at a concrete certificate identifier. -/
theorem qr_url_roundtrip_witness :
    containsMarker "CERT-B26A001-0123456789AB".toList = false ∧
      detect_qr_code (Except.ok [qr_url "CERT-B26A001-0123456789AB".toList]) =
        some "CERT-B26A001-0123456789AB".toList :=
  ⟨by decide, qr_url_roundtrip _ (by decide)⟩

/-- Claim C3: for every input, the `AnalysisResult` produced by
`analyze_tag_image` has `overall_valid` equal to the conjunction of the four
detection booleans, and the extracted cert-id field is populated (`isSome`)
exactly when `qr_detected` is true — in particular it is present only if
`qr_detected` holds. -/
theorem analyze_overall_valid_and_certid (eqr : Except PyErr (List (List Char)))
    (ehsv : Except PyErr (List HSV)) (elines : Except PyErr (Option (List Segment)))
    (ecorners : Except PyErr (List ℚ)) :
    (analyze_tag_image eqr ehsv elines ecorners).overall_valid =
      ((analyze_tag_image eqr ehsv elines ecorners).qr_detected &&
        (analyze_tag_image eqr ehsv elines ecorners).guilloche_detected &&
        (analyze_tag_image eqr ehsv elines ecorners).grid_detected &&
        (analyze_tag_image eqr ehsv elines ecorners).corners_detected) ∧
    (analyze_tag_image eqr ehsv elines ecorners).qr_cert_id.isSome =
      (analyze_tag_image eqr ehsv elines ecorners).qr_detected := by
  refine ⟨rfl, ?_⟩
  rcases hq : detect_qr_code eqr with _ | s
  · simp [analyze_tag_image, hq, truthyId]
  · rcases s with _ | ⟨c, cs⟩ <;> simp [analyze_tag_image, hq, truthyId]

/-- Claim C6: each of the four component detectors maps any raised internal
library failure (the `except` branch of its `try` block) to the
"not detected" outcome — `None` for the QR detector, `False` for the other
three — instead of propagating the exception; as total Lean functions they
never raise.  The last conjunct covers the corner detector's internal
`corners.max()` failure on an empty response map, likewise caught and
collapsed to `False`. -/
theorem detectors_total_on_failure (e : PyErr) :
    detect_qr_code (Except.error e) = none ∧
    detect_guilloche_pattern (Except.error e) = false ∧
    detect_grid_pattern (Except.error e) = false ∧
    detect_corner_markers (Except.error e) = false ∧
    detect_corner_markers (Except.ok []) = false :=
  ⟨rfl, rfl, rfl, rfl, rfl⟩

/-- Claim C10: if a decoded QR payload contains `id=` but with nothing
after the first occurrence, `detect_qr_code` returns the empty string,
`analyze_tag_image` then reports `qr_detected = false` and
`qr_cert_id = None` (the empty string is falsy), and the scan is classified
`SCAN_FAILED` rather than looking the empty identifier up in the registry. -/
theorem empty_id_scan_failed (p : List Char)
    (ehsv : Except PyErr (List HSV)) (elines : Except PyErr (Option (List Segment)))
    (ecorners : Except PyErr (List ℚ)) (db : DB)
    (h1 : containsMarker p = true) (h2 : (splitMarker p).getD 1 [] = []) :
    detect_qr_code (Except.ok [p]) = some [] ∧
    (analyze_tag_image (Except.ok [p]) ehsv elines ecorners).qr_detected = false ∧
    (analyze_tag_image (Except.ok [p]) ehsv elines ecorners).qr_cert_id = none ∧
    classify (analyze_tag_image (Except.ok [p]) ehsv elines ecorners)
        (lookupTag db (analyze_tag_image (Except.ok [p]) ehsv elines ecorners)) =
      Verdict.SCAN_FAILED := by
  have hd : detect_qr_code (Except.ok [p]) = some [] := by
    have h2' : (splitMarker p)[1]?.getD [] = [] := by
      simpa [List.getD_eq_getElem?_getD] using h2
    simp [detect_qr_code, detectQrLoop, h1, h2']
  refine ⟨hd, ?_, ?_, ?_⟩ <;>
    simp [analyze_tag_image, hd, truthyId, classify, lookupTag]

/-- Witness for C10: the payload `https://skern.com/verify?id=` with an
empty value. -/
theorem empty_id_scan_failed_witness :
    detect_qr_code (Except.ok ["https://skern.com/verify?id=".toList]) = some [] ∧
    (analyze_tag_image (Except.ok ["https://skern.com/verify?id=".toList])
        (Except.error ⟨[]⟩) (Except.error ⟨[]⟩) (Except.error ⟨[]⟩)).qr_detected = false ∧
    (analyze_tag_image (Except.ok ["https://skern.com/verify?id=".toList])
        (Except.error ⟨[]⟩) (Except.error ⟨[]⟩) (Except.error ⟨[]⟩)).qr_cert_id = none ∧
    classify (analyze_tag_image (Except.ok ["https://skern.com/verify?id=".toList])
          (Except.error ⟨[]⟩) (Except.error ⟨[]⟩) (Except.error ⟨[]⟩))
        (lookupTag (fun _ => none)
          (analyze_tag_image (Except.ok ["https://skern.com/verify?id=".toList])
            (Except.error ⟨[]⟩) (Except.error ⟨[]⟩) (Except.error ⟨[]⟩))) =
      Verdict.SCAN_FAILED :=
  empty_id_scan_failed _ _ _ _ (fun _ => none) (by decide) (by decide)

/-- The analyzer never reports the empty string as the extracted
cert-id: the `if cert_id:` guard filters it out. -/
theorem analyze_certid_ne_empty (eqr : Except PyErr (List (List Char)))
    (ehsv : Except PyErr (List HSV)) (elines : Except PyErr (Option (List Segment)))
    (ecorners : Except PyErr (List ℚ)) :
    (analyze_tag_image eqr ehsv elines ecorners).qr_cert_id ≠ some [] := by
  rcases hq : detect_qr_code eqr with _ | s
  · simp [analyze_tag_image, hq, truthyId]
  · rcases s with _ | ⟨c, cs⟩ <;> simp [analyze_tag_image, hq, truthyId]


/-- Claim C1: the verdict classification of the scan tab is a state-free
function of the `AnalysisResult` and the registry lookup of the extracted
cert-id: a registry hit with `overall_valid` true yields AUTHENTIC, a hit
with `overall_valid` false yields SUSPICIOUS, an extracted cert-id with no
registry hit yields COUNTERFEIT, and no extracted cert-id yields
SCAN_FAILED; stated as four characterising equivalences, the cases are
mutually exclusive and exhaustive.  The hypothesis excludes the empty
extracted string, which `analyze_tag_image` never produces
(`analyze_certid_ne_empty`). -/
theorem verdict_decision_table (a : AnalysisResult) (db : DB)
    (h : a.qr_cert_id ≠ some []) :
    (classify a (lookupTag db a) = Verdict.AUTHENTIC ↔
      (lookupTag db a).isSome = true ∧ a.overall_valid = true) ∧
    (classify a (lookupTag db a) = Verdict.SUSPICIOUS ↔
      (lookupTag db a).isSome = true ∧ a.overall_valid = false) ∧
    (classify a (lookupTag db a) = Verdict.COUNTERFEIT ↔
      a.qr_cert_id.isSome = true ∧ lookupTag db a = none) ∧
    (classify a (lookupTag db a) = Verdict.SCAN_FAILED ↔ a.qr_cert_id = none) := by
  rcases hq : a.qr_cert_id with _ | s
  · have hl : lookupTag db a = none := by simp [lookupTag, truthyId, hq]
    simp [classify, hl, truthyId, hq]
  · rcases s with _ | ⟨c, cs⟩
    · exact absurd hq h
    · have hl : lookupTag db a = db (c :: cs) := by
        simp [lookupTag, truthyId, hq, verify_tag_in_db]
      rcases hdb : db (c :: cs) with _ | r <;> cases hv : a.overall_valid <;>
        simp [classify, hl, hdb, truthyId, hq, hv]

/-- Witness for C1 at a concrete analysis result and registry state. -/
theorem verdict_decision_table_witness :
    (classify ⟨true, some ['X'], true, true, true, true⟩
        (lookupTag (fun _ => none) ⟨true, some ['X'], true, true, true, true⟩) =
        Verdict.AUTHENTIC ↔
      (lookupTag (fun _ => none) ⟨true, some ['X'], true, true, true, true⟩).isSome = true ∧
        (⟨true, some ['X'], true, true, true, true⟩ : AnalysisResult).overall_valid = true) ∧
    (classify ⟨true, some ['X'], true, true, true, true⟩
        (lookupTag (fun _ => none) ⟨true, some ['X'], true, true, true, true⟩) =
        Verdict.SUSPICIOUS ↔
      (lookupTag (fun _ => none) ⟨true, some ['X'], true, true, true, true⟩).isSome = true ∧
        (⟨true, some ['X'], true, true, true, true⟩ : AnalysisResult).overall_valid = false) ∧
    (classify ⟨true, some ['X'], true, true, true, true⟩
        (lookupTag (fun _ => none) ⟨true, some ['X'], true, true, true, true⟩) =
        Verdict.COUNTERFEIT ↔
      (⟨true, some ['X'], true, true, true, true⟩ : AnalysisResult).qr_cert_id.isSome = true ∧
        lookupTag (fun _ => none) ⟨true, some ['X'], true, true, true, true⟩ = none) ∧
    (classify ⟨true, some ['X'], true, true, true, true⟩
        (lookupTag (fun _ => none) ⟨true, some ['X'], true, true, true, true⟩) =
        Verdict.SCAN_FAILED ↔
      (⟨true, some ['X'], true, true, true, true⟩ : AnalysisResult).qr_cert_id = none) :=
  verdict_decision_table ⟨true, some ['X'], true, true, true, true⟩ (fun _ => none) (by decide)

/-- Claim C9: a downloadable verification report is produced exactly when a
(truthy) cert-id was extracted, and the `verification_result` of a produced
report is never SCAN_FAILED — that branch of the report computation is
unreachable. -/
theorem report_verdict_no_scan_failed (a : AnalysisResult)
    (tag_data : Option RegistryRecord) :
    (report_verification_result a tag_data).isSome = truthyId a.qr_cert_id ∧
    report_verification_result a tag_data ≠ some Verdict.SCAN_FAILED := by
  constructor
  · rw [report_verification_result]
    by_cases ht : truthyId a.qr_cert_id = true
    · simp [ht]
    · simp only [Bool.not_eq_true] at ht
      simp [ht]
  · rw [report_verification_result]
    by_cases ht : truthyId a.qr_cert_id = true
    · rcases hs : tag_data with _ | r
      · simp [ht, hs]
      · cases hv : a.overall_valid <;> simp [ht, hs, hv]
    · simp only [Bool.not_eq_true] at ht
      simp [ht]

/-- Witness for C9 at a concrete analysis result. -/
theorem report_verdict_no_scan_failed_witness :
    (report_verification_result ⟨true, some ['X'], true, true, true, true⟩ none).isSome =
      truthyId (⟨true, some ['X'], true, true, true, true⟩ : AnalysisResult).qr_cert_id ∧
    report_verification_result ⟨true, some ['X'], true, true, true, true⟩ none ≠
      some Verdict.SCAN_FAILED :=
  report_verdict_no_scan_failed ⟨true, some ['X'], true, true, true, true⟩ none


/-- Claim C5: the guilloche detector counts cyan-band and magenta-band
pixels independently and reports detected exactly when at least one count
strictly exceeds 2% of the total pixel area; an image whose matching count
equals exactly 2.0% of the area is reported as not detected. -/
theorem guilloche_threshold_strict (img : List HSV) :
    (detect_guilloche_pattern (Except.ok img) = true ↔
      50 * cyan_count img > img.length ∨ 50 * magenta_count img > img.length) ∧
    (50 * cyan_count img = img.length ∧ 50 * magenta_count img ≤ img.length →
      detect_guilloche_pattern (Except.ok img) = false) := by
  have key : ∀ n : ℕ, ((n : ℚ) > (img.length : ℚ) * (2 / 100) ↔ 50 * n > img.length) := by
    intro n
    rw [gt_iff_lt, gt_iff_lt]
    constructor
    · intro hlt
      have h2 : (img.length : ℚ) < ((50 * n : ℕ) : ℚ) := by push_cast; linarith
      exact_mod_cast h2
    · intro hlt
      have h2 : (img.length : ℚ) < ((50 * n : ℕ) : ℚ) := by exact_mod_cast hlt
      push_cast at h2
      linarith
  have hiff : detect_guilloche_pattern (Except.ok img) = true ↔
      50 * cyan_count img > img.length ∨ 50 * magenta_count img > img.length := by
    simp only [detect_guilloche_pattern, Bool.or_eq_true, decide_eq_true_eq]
    rw [key, key]
  refine ⟨hiff, fun hb => ?_⟩
  cases hd : detect_guilloche_pattern (Except.ok img)
  · rfl
  · have := hiff.mp hd
    omega

/-- Witness for C5: a 50-pixel image with exactly one cyan-band pixel
(exactly 2.0% coverage) is not detected; with two (4%) it is. -/
theorem guilloche_threshold_strict_witness :
    50 * cyan_count (⟨90, 200, 200⟩ :: List.replicate 49 ⟨0, 0, 0⟩) =
        (⟨90, 200, 200⟩ :: List.replicate 49 (⟨0, 0, 0⟩ : HSV)).length ∧
    50 * magenta_count (⟨90, 200, 200⟩ :: List.replicate 49 ⟨0, 0, 0⟩) ≤
        (⟨90, 200, 200⟩ :: List.replicate 49 (⟨0, 0, 0⟩ : HSV)).length ∧
    detect_guilloche_pattern
        (Except.ok (⟨90, 200, 200⟩ :: List.replicate 49 ⟨0, 0, 0⟩)) = false ∧
    detect_guilloche_pattern
        (Except.ok (⟨90, 200, 200⟩ :: ⟨91, 200, 200⟩ :: List.replicate 48 ⟨0, 0, 0⟩)) = true :=
  ⟨by decide, by decide,
    (guilloche_threshold_strict (⟨90, 200, 200⟩ :: List.replicate 49 ⟨0, 0, 0⟩)).2
      ⟨by decide, by decide⟩,
    (guilloche_threshold_strict
        (⟨90, 200, 200⟩ :: ⟨91, 200, 200⟩ :: List.replicate 48 ⟨0, 0, 0⟩)).1.mpr
      (Or.inl (by decide))⟩

/-- Concrete database holding one record under cert-id
`CERT-B26A001-AAAAAAAAAAAA` (C2 failing input, first issuance). -/
def demoBundle1 : SecretBundle :=
  { cert_id := "CERT-B26A001-AAAAAAAAAAAA".toList
    guilloche_id := List.replicate 16 0
    border_id := List.replicate 16 0
    serial_number := "SK-000000000000".toList }

/-- A second bundle that collides on the same cert-id (C2 failing input,
second issuance). -/
def demoBundle2 : SecretBundle :=
  { cert_id := "CERT-B26A001-AAAAAAAAAAAA".toList
    guilloche_id := List.replicate 16 1
    border_id := List.replicate 16 2
    serial_number := "SK-111111111111".toList }

/-- Claim C2 (code bug evidence): `store_tag_in_db` is a plain dict
assignment with no existence check, so storing a second bundle with an
already-registered cert-id silently replaces the previously stored
`RegistryRecord` — the spec's registry contract (`put` fails if `cert_id`
already exists; never overwrite) is violated by the code. -/
theorem store_tag_overwrites :
    verify_tag_in_db
        (store_tag_in_db (fun _ => none) demoBundle1 "B26A001".toList "t0".toList)
        demoBundle1.cert_id =
      some (mkRegistryRecord demoBundle1 "B26A001".toList "t0".toList) ∧
    verify_tag_in_db
        (store_tag_in_db
          (store_tag_in_db (fun _ => none) demoBundle1 "B26A001".toList "t0".toList)
          demoBundle2 "B26A001".toList "t1".toList)
        demoBundle1.cert_id =
      some (mkRegistryRecord demoBundle2 "B26A001".toList "t1".toList) ∧
    mkRegistryRecord demoBundle2 "B26A001".toList "t1".toList ≠
      mkRegistryRecord demoBundle1 "B26A001".toList "t0".toList := by
  refine ⟨by decide, by decide, by decide⟩


/-- Any byte selected from the key by the cycling index is below 256. -/
theorem curveByte_lt_256 (key : List ℕ) (hk : ∀ x ∈ key, x < 256)
    (hlen : key.length = 16) (i j : ℕ) : curveByte key i j < 256 := by
  rw [curveByte, List.getD_eq_getElem?_getD]
  have hidx : (4 * i + j) % 16 < key.length := by
    rw [hlen]
    exact Nat.mod_lt _ (by norm_num)
  rw [List.getElem?_eq_getElem hidx]
  exact hk _ (List.getElem_mem hidx)

/-- Claim C7: for every 16-byte guilloche key, every canvas size and every
curve index, the derived curve parameters lie in the fixed design ranges:
the amplitude is between 70% and 100% of a maximum radius equal to 47.5% of
the canvas size, the frequency is an integer in [8, 15], the petal count an
integer in [5, 12], and the phase `(byte / 255) * 2 * π` lies in [0, 2π].
Curve `i` draws its bytes from offsets `4 * i + j (mod 16)`, `j` in 0..3
(`curveByte`). -/
theorem guilloche_param_ranges (key : List ℕ) (i : ℕ) (canvas_size : ℚ)
    (hk : ∀ x ∈ key, x < 256) (hlen : key.length = 16) (_hi : i < 4)
    (hc : 0 ≤ canvas_size) :
    max_radius canvas_size = canvas_size * (475 / 1000) ∧
    (7 / 10) * max_radius canvas_size ≤ amp canvas_size (curveByte key i 0) ∧
    amp canvas_size (curveByte key i 0) ≤ max_radius canvas_size ∧
    8 ≤ freq (curveByte key i 1) ∧ freq (curveByte key i 1) ≤ 15 ∧
    5 ≤ petals (curveByte key i 2) ∧ petals (curveByte key i 2) ≤ 12 ∧
    0 ≤ (phaseTurns (curveByte key i 3) : ℝ) * (2 * Real.pi) ∧
    (phaseTurns (curveByte key i 3) : ℝ) * (2 * Real.pi) ≤ 2 * Real.pi := by
  have hmr : 0 ≤ max_radius canvas_size := by
    rw [max_radius]; positivity
  have hb0 := curveByte_lt_256 key hk hlen i 0
  have hb1 := curveByte_lt_256 key hk hlen i 1
  have hb2 := curveByte_lt_256 key hk hlen i 2
  have hb3 := curveByte_lt_256 key hk hlen i 3
  refine ⟨rfl, ?_, ?_, ?_, ?_, ?_, ?_, ?_, ?_⟩
  · rw [amp]
    have ht0 : (0 : ℚ) ≤ (curveByte key i 0 : ℚ) / 255 := by positivity
    nlinarith [mul_nonneg hmr ht0]
  · rw [amp]
    have ht1 : (curveByte key i 0 : ℚ) / 255 ≤ 1 := by
      rw [div_le_one (by norm_num : (0:ℚ) < 255)]
      exact_mod_cast Nat.lt_succ_iff.mp hb0
    have ht0 : (0 : ℚ) ≤ (curveByte key i 0 : ℚ) / 255 := by positivity
    nlinarith [mul_nonneg hmr (by linarith : (0:ℚ) ≤ 1 - (curveByte key i 0 : ℚ) / 255)]
  · rw [freq]; omega
  · rw [freq]; omega
  · rw [petals]; omega
  · rw [petals]; omega
  · have ht0 : (0 : ℝ) ≤ ((phaseTurns (curveByte key i 3) : ℚ) : ℝ) := by
      rw [phaseTurns]; positivity
    positivity
  · have ht1 : ((phaseTurns (curveByte key i 3) : ℚ) : ℝ) ≤ 1 := by
      rw [phaseTurns]
      push_cast
      rw [div_le_one (by norm_num : (0:ℝ) < 255)]
      exact_mod_cast Nat.lt_succ_iff.mp hb3
    nlinarith [Real.pi_pos, ht1]

/-- Witness for C7: the all-zero key, curve 0, canvas size 1200. -/
theorem guilloche_param_ranges_witness :
    max_radius 1200 = 1200 * (475 / 1000) ∧
    (7 / 10) * max_radius 1200 ≤ amp 1200 (curveByte (List.replicate 16 0) 0 0) ∧
    amp 1200 (curveByte (List.replicate 16 0) 0 0) ≤ max_radius 1200 ∧
    8 ≤ freq (curveByte (List.replicate 16 0) 0 1) ∧
    freq (curveByte (List.replicate 16 0) 0 1) ≤ 15 ∧
    5 ≤ petals (curveByte (List.replicate 16 0) 0 2) ∧
    petals (curveByte (List.replicate 16 0) 0 2) ≤ 12 ∧
    0 ≤ (phaseTurns (curveByte (List.replicate 16 0) 0 3) : ℝ) * (2 * Real.pi) ∧
    (phaseTurns (curveByte (List.replicate 16 0) 0 3) : ℝ) * (2 * Real.pi) ≤ 2 * Real.pi :=
  guilloche_param_ranges (List.replicate 16 0) 0 1200 (by decide) (by decide)
    (by decide) (by norm_num)


/-- The gap-length byte offset `(segment % 16 + 5) % 16` always differs
from the dash-length byte offset `segment % 16`. -/
theorem gapByteIdx_ne_dashByteIdx (s : ℕ) : gapByteIdx s ≠ dashByteIdx s := by
  rw [gapByteIdx, dashByteIdx]
  omega

/-- Invariant of the single-side dash loop: the emitted steps carry
consecutive segment indices starting at the entry counter, the final
counter is entry plus the number of dashes, and every step derives its
byte offsets and values by the cycling rules. -/
theorem walkSide_spec (params : List ℕ) (sinq : ℚ → ℚ) (len : ℚ) :
    ∀ (fuel : ℕ) (dist : ℚ) (seg : ℕ),
      (walkSide params sinq len fuel dist seg).1.map DashStep.segment =
        List.range' seg (walkSide params sinq len fuel dist seg).1.length ∧
      (walkSide params sinq len fuel dist seg).2 =
        seg + (walkSide params sinq len fuel dist seg).1.length ∧
      ∀ st ∈ (walkSide params sinq len fuel dist seg).1,
        st.dashIdx = dashByteIdx st.segment ∧ st.gapIdx = gapByteIdx st.segment ∧
        st.gap_len = gap_len_at params st.segment ∧
        st.thickness = thickness_at params st.segment := by
  intro fuel
  induction fuel with
  | zero => intro dist seg; simp [walkSide]
  | succ fuel ih =>
    intro dist seg
    by_cases hd : dist < len
    · obtain ⟨ih1, ih2, ih3⟩ :=
        ih (dist + dash_len_at params sinq seg dist + gap_len_at params seg) (seg + 1)
    
      rw [walkSide]
      simp only [if_pos hd]
      refine ⟨?_, ?_, ?_⟩
      · simpa [List.range'_succ] using ih1
      · simp only [List.length_cons, ih2]
        omega
      · intro st hst
        simp only [List.mem_cons] at hst
        rcases hst with rfl | hst
        · exact ⟨rfl, rfl, rfl, rfl⟩
        · exact ih3 st hst
    · rw [walkSide]
      simp [if_neg hd]

/-- The four-side walk threads the segment counter across sides: the
concatenated steps still carry consecutive segment indices. -/
theorem walkBorder_spec (params : List ℕ) (sinq : ℚ → ℚ) (fuel : ℕ) :
    ∀ (sides : List ℚ) (seg : ℕ),
      (walkBorder params sinq fuel sides seg).1.map DashStep.segment =
        List.range' seg (walkBorder params sinq fuel sides seg).1.length ∧
      (walkBorder params sinq fuel sides seg).2 =
        seg + (walkBorder params sinq fuel sides seg).1.length ∧
      ∀ st ∈ (walkBorder params sinq fuel sides seg).1,
        st.dashIdx = dashByteIdx st.segment ∧ st.gapIdx = gapByteIdx st.segment ∧
        st.gap_len = gap_len_at params st.segment ∧
        st.thickness = thickness_at params st.segment := by
  intro sides
  induction sides with
  | nil => intro seg; simp [walkBorder]
  | cons L rest ihs =>
    intro seg
    obtain ⟨h1, h2, h3⟩ := walkSide_spec params sinq L fuel 0 seg
    obtain ⟨g1, g2, g3⟩ := ihs ((walkSide params sinq L fuel 0 seg).2)
    rw [h2] at g1 g2 g3
    simp only [walkBorder]
    rw [h2]
    refine ⟨?_, ?_, ?_⟩
    · rw [List.map_append, List.length_append, h1, g1]
      have ha := List.range'_append seg ((walkSide params sinq L fuel 0 seg).1.length)
        ((walkBorder params sinq fuel rest
          (seg + (walkSide params sinq L fuel 0 seg).1.length)).1.length) 1
      simp only [one_mul] at ha
      rw [ha, Nat.add_comm ((walkBorder params sinq fuel rest
          (seg + (walkSide params sinq L fuel 0 seg).1.length)).1.length)
        ((walkSide params sinq L fuel 0 seg).1.length)]
    · rw [List.length_append, g2]
      omega
    · intro st hst
      rcases List.mem_append.mp hst with hst | hst
      · exact h3 st hst
      · exact g3 st hst

/-- Claim C8 (amended): in the border dash walk, for every border key and
segment index, dash length, gap length and line thickness are derived from
cycling byte offsets of the key; the gap length reads a different byte
offset than the dash length (`(segment % 16 + 5) % 16` vs `segment % 16`),
while the line thickness reads the same byte offset as the dash length
(not an independent one, contrary to the original claim — see
`border_thickness_counterexample`); the segment index advances after every
dash and carries across the four sides rather than resetting per side, so
the emitted segment indices are exactly `0, 1, 2, ...` over the whole
border. -/
theorem border_dash_walk (params : List ℕ) (sinq : ℚ → ℚ) (sides : List ℚ) (fuel : ℕ) :
    (walkBorder params sinq fuel sides 0).1.map DashStep.segment =
      List.range (walkBorder params sinq fuel sides 0).1.length ∧
    (walkBorder params sinq fuel sides 0).2 =
      (walkBorder params sinq fuel sides 0).1.length ∧
    ∀ st ∈ (walkBorder params sinq fuel sides 0).1,
      st.dashIdx = dashByteIdx st.segment ∧ st.gapIdx = gapByteIdx st.segment ∧
      st.gapIdx ≠ st.dashIdx ∧
      st.gap_len = gap_len_at params st.segment ∧
      st.thickness = thickness_at params st.segment := by
  obtain ⟨h1, h2, h3⟩ := walkBorder_spec params sinq fuel sides 0
  refine ⟨by rw [h1, List.range_eq_range'], by simpa using h2, ?_⟩
  intro st hst
  obtain ⟨p1, p2, p3, p4⟩ := h3 st hst
  refine ⟨p1, p2, ?_, p3, p4⟩
  rw [p1, p2]
  exact gapByteIdx_ne_dashByteIdx st.segment

/-- Witness for C8 at the all-zero key, a constant-zero sine stub, one
side of length 100 and fuel 5. -/
theorem border_dash_walk_witness :
    (walkBorder (List.replicate 16 0) (fun _ => 0) 5 [100] 0).1.map DashStep.segment =
      List.range (walkBorder (List.replicate 16 0) (fun _ => 0) 5 [100] 0).1.length ∧
    (walkBorder (List.replicate 16 0) (fun _ => 0) 5 [100] 0).2 =
      (walkBorder (List.replicate 16 0) (fun _ => 0) 5 [100] 0).1.length :=
  ⟨(border_dash_walk (List.replicate 16 0) (fun _ => 0) [100] 5).1,
    (border_dash_walk (List.replicate 16 0) (fun _ => 0) [100] 5).2.1⟩

/-- Counterexample to C8 as stated: two 16-byte keys that agree at every
byte offset except the dash byte's offset for segment 0 (offset 0) yield
different line thicknesses (6 vs 9), so thickness is derived from the same
byte as the dash length, not from a different offset; the gap length, which
genuinely reads a different offset, is unchanged. -/
theorem border_thickness_counterexample :
    dashByteIdx 0 = 0 ∧
    (List.replicate 16 0 : List ℕ).drop 1 = (255 :: List.replicate 15 0 : List ℕ).drop 1 ∧
    thickness_at (List.replicate 16 0) 0 = 6 ∧
    thickness_at (255 :: List.replicate 15 0) 0 = 9 ∧
    thickness_at (List.replicate 16 0) 0 ≠ thickness_at (255 :: List.replicate 15 0) 0 ∧
    gap_len_at (List.replicate 16 0) 0 = gap_len_at (255 :: List.replicate 15 0) 0 := by
  have hb1 : (List.replicate 16 0 : List ℕ).getD (dashByteIdx 0) 0 = 0 := by decide
  have hb2 : (255 :: List.replicate 15 0 : List ℕ).getD (dashByteIdx 0) 0 = 255 := by decide
  have hg1 : (List.replicate 16 0 : List ℕ).getD (gapByteIdx 0) 0 = 0 := by decide
  have hg2 : (255 :: List.replicate 15 0 : List ℕ).getD (gapByteIdx 0) 0 = 0 := by decide
  have ht1 : thickness_at (List.replicate 16 0) 0 = 6 := by
    rw [thickness_at, hb1]
    norm_num
  have ht2 : thickness_at (255 :: List.replicate 15 0) 0 = 9 := by
    rw [thickness_at, hb2]
    norm_num
  refine ⟨rfl, by decide, ht1, ht2, by rw [ht1, ht2]; decide, ?_⟩
  rw [gap_len_at, gap_len_at, hg1, hg2]

end Skern
